import Mathlib

/-!
# Edge-detection frame pipeline

A shallow embedding of `jni/ImageProcessor.{h,cpp}` and `jni/native-lib.cpp`.

The repository is glue code between three environments: the JNI entry points,
OpenCV (`cv::Mat`, `cv::cvtColor`, `cv::Canny`) and OpenGL ES 2 (texture
objects).  The entry points and the `ImageProcessor` class are translated
statement by statement.  The library calls they make are given by their
interface behaviour:

* OpenCV: the size, channel and assertion policy of each call is explicit; the
  per-pixel arithmetic (YUV to RGB, RGB to luminance) and the edge decision of
  the Canny detector are parameters (`CvKernels`).
* OpenGL ES 2: texture names, texture objects, the binding point and the
  level-0 image of every texture are explicit state (`GLState`).  The names
  `glGenTextures` hands out are an oracle inside the state.  The error flag
  (never queried by the program), implementation limits and the requirement of
  a current context are outside the model.

Faults that end the process (an uncaught `cv::Exception`, a read past the end
of the Java array, a call through the null `gProcessor`) are the error side of
`Except Fault`.
-/

namespace EdgeDetection

/-! ## OpenCV side -/

/-- Ways in which a native call fails to return. -/
inductive Fault where
  | cvAssertion
  | outOfBoundsRead
  | nullDereference
deriving DecidableEq, Repr

/-- A continuous 8-bit `cv::Mat` owned by OpenCV: `rows * cols` pixels of
`channels` bytes each, row-major. -/
structure Mat where
  rows : Nat
  cols : Nat
  channels : Nat
  data : List Nat
deriving DecidableEq, Repr

/-- The parts of OpenCV whose arithmetic the program does not depend on:
`yuv2rgb y u v` is the colour of one pixel, `rgb2gray r g b` its luminance,
`cannyEdge gray low high i` tells whether pixel number `i` of `gray` is kept
as an edge by the Canny detector with the given thresholds. -/
structure CvKernels where
  yuv2rgb : Nat → Nat → Nat → Nat × Nat × Nat
  rgb2gray : Nat → Nat → Nat → Nat
  cannyEdge : Mat → Nat → Nat → Nat → Bool

/-- Byte `ch` of the pixel in row `r`, column `c`. -/
def Mat.at (m : Mat) (r c ch : Nat) : Nat :=
  m.data.getD ((r * m.cols + c) * m.channels + ch) 0

/-- The bytes of `n` pixels of four channels, pixel `i` being `f i`. -/
def genPixels (f : Nat → Nat × Nat × Nat × Nat) : Nat → List Nat
  | 0 => []
  | n + 1 => genPixels f n ++ [(f n).1, (f n).2.1, (f n).2.2.1, (f n).2.2.2]

/-- One output pixel of the two-plane (NV21) conversion: the luma byte of the
pixel and the V, U pair of its 2x2 block, the chroma rows starting at row
`hOut` of the source; alpha is 255. -/
def nv21Pixel (k : CvKernels) (src : List Nat) (cols hOut i : Nat) : Nat × Nat × Nat × Nat :=
  let r := i / cols
  let c := i % cols
  let y := src.getD (r * cols + c) 0
  let v := src.getD ((hOut + r / 2) * cols + c / 2 * 2) 0
  let u := src.getD ((hOut + r / 2) * cols + c / 2 * 2 + 1) 0
  let rgb := k.yuv2rgb y u v
  (rgb.1, rgb.2.1, rgb.2.2, 255)

/-- `cv::cvtColor(src, dst, cv::COLOR_YUV2RGBA_NV21)` for a single-channel
header of `rows` by `cols` bytes over the buffer `data` (the header is the one
built by `cv::Mat yMat(height, width, CV_8UC1, bytes)`; its dimensions are
unchecked `int`s).  OpenCV asserts a non-empty source with an even width and a
height that is a multiple of three, and creates a four-channel destination of
`cols` columns and `rows * 2 / 3` rows; a header with a dimension that is not
positive is rejected as well.  All `rows * cols` source bytes are read, which
faults when the buffer is shorter. -/
def cvtColor_YUV2RGBA_NV21 (k : CvKernels) (rows cols : Int) (data : List Nat) :
    Except Fault Mat :=
  if rows ≤ 0 ∨ cols ≤ 0 then .error .cvAssertion
  else if cols % 2 ≠ 0 ∨ rows % 3 ≠ 0 then .error .cvAssertion
  else if (data.length : Int) < rows * cols then .error .outOfBoundsRead
  else
    let w := cols.toNat
    let hOut := (rows * 2 / 3).toNat
    .ok { rows := hOut, cols := w, channels := 4,
          data := genPixels (nv21Pixel k data w hOut) (hOut * w) }

/-- `cv::cvtColor(src, dst, cv::COLOR_RGBA2GRAY)`: a non-empty source of three
or four channels is asserted; the destination has one channel and the same
size. -/
def cvtColor_RGBA2GRAY (k : CvKernels) (src : Mat) : Except Fault Mat :=
  if src.rows = 0 ∨ src.cols = 0 then .error .cvAssertion
  else if src.channels ≠ 3 ∧ src.channels ≠ 4 then .error .cvAssertion
  else
    .ok { rows := src.rows, cols := src.cols, channels := 1,
          data := (List.range (src.rows * src.cols)).map fun i =>
            k.rgb2gray (src.data.getD (i * src.channels) 0)
              (src.data.getD (i * src.channels + 1) 0)
              (src.data.getD (i * src.channels + 2) 0) }

/-- `cv::Canny(image, edges, low, high)` on an 8-bit image: the edge map has
one channel and the size of the image, 255 at the pixels kept as edges and 0
elsewhere. -/
def Canny (k : CvKernels) (image : Mat) (low high : Nat) : Mat :=
  { rows := image.rows, cols := image.cols, channels := 1,
    data := (List.range (image.rows * image.cols)).map fun i =>
      if k.cannyEdge image low high i then 255 else 0 }

/-- The bytes written by the gray to RGBA conversion: each gray value three
times, followed by alpha 255. -/
def grayToRgbaBytes : List Nat → List Nat
  | [] => []
  | g :: rest => g :: g :: g :: 255 :: grayToRgbaBytes rest

/-- `cv::cvtColor(src, dst, cv::COLOR_GRAY2RGBA)`: a non-empty single-channel
source is asserted; the destination has four channels and the same size. -/
def cvtColor_GRAY2RGBA (src : Mat) : Except Fault Mat :=
  if src.rows = 0 ∨ src.cols = 0 then .error .cvAssertion
  else if src.channels ≠ 1 then .error .cvAssertion
  else
    .ok { rows := src.rows, cols := src.cols, channels := 4,
          data := grayToRgbaBytes src.data }

/-! ## OpenGL ES side -/

/-- A texture object: its two filter parameters and its level-0 RGBA image
(`width * height * 4` bytes, `none` where the content is undefined). -/
structure TexObject where
  minFilter : Nat
  magFilter : Nat
  width : Nat
  height : Nat
  data : List (Option Nat)
deriving DecidableEq, Repr

/-- The part of the GL context the program touches. -/
structure GLState where
  supply : List Nat
  textures : List (Nat × TexObject)
  bound : Nat
deriving DecidableEq, Repr

def GL_LINEAR : Nat := 0x2601

def GL_NEAREST_MIPMAP_LINEAR : Nat := 0x2702

/-- A texture object as created by its first binding. -/
def TexObject.fresh : TexObject :=
  { minFilter := GL_NEAREST_MIPMAP_LINEAR, magFilter := GL_LINEAR,
    width := 0, height := 0, data := [] }

def texLookup : List (Nat × TexObject) → Nat → Option TexObject
  | [], _ => none
  | (n, t) :: rest, name => if n = name then some t else texLookup rest name

def texErase : List (Nat × TexObject) → Nat → List (Nat × TexObject)
  | [], _ => []
  | (n, t) :: rest, name =>
    if n = name then texErase rest name else (n, t) :: texErase rest name

def texStore (ts : List (Nat × TexObject)) (name : Nat) (t : TexObject) :
    List (Nat × TexObject) :=
  (name, t) :: texErase ts name

/-- The object currently bound to `GL_TEXTURE_2D`. -/
def GLState.current (gl : GLState) : TexObject :=
  (texLookup gl.textures gl.bound).getD TexObject.fresh

/-- `glGenTextures(1, &name)`: the next name of the supply, if any. -/
def glGenTextures (gl : GLState) : GLState × Option Nat :=
  match gl.supply with
  | [] => (gl, none)
  | n :: rest => ({ gl with supply := rest }, some n)

/-- `glBindTexture(GL_TEXTURE_2D, name)`: a name bound for the first time gets
a fresh object. -/
def glBindTexture (gl : GLState) (name : Nat) : GLState :=
  match texLookup gl.textures name with
  | some _ => { gl with bound := name }
  | none => { gl with bound := name, textures := texStore gl.textures name TexObject.fresh }

/-- `glTexParameteri(GL_TEXTURE_2D, GL_TEXTURE_MIN_FILTER, v)`. -/
def glTexParameteri_MIN_FILTER (gl : GLState) (v : Nat) : GLState :=
  let t : TexObject := { gl.current with minFilter := v }
  { gl with textures := texStore gl.textures gl.bound t }

/-- `glTexParameteri(GL_TEXTURE_2D, GL_TEXTURE_MAG_FILTER, v)`. -/
def glTexParameteri_MAG_FILTER (gl : GLState) (v : Nat) : GLState :=
  let t : TexObject := { gl.current with magFilter := v }
  { gl with textures := texStore gl.textures gl.bound t }

/-- `glTexImage2D(GL_TEXTURE_2D, 0, GL_RGBA, width, height, 0, GL_RGBA,
GL_UNSIGNED_BYTE, NULL)`: a negative size is an error and changes nothing;
otherwise the bound object gets an image of that size with undefined
content. -/
def glTexImage2D_null (gl : GLState) (width height : Int) : GLState :=
  if width < 0 ∨ height < 0 then gl
  else
    let t : TexObject :=
      { gl.current with width := width.toNat, height := height.toNat,
                        data := List.replicate (width.toNat * height.toNat * 4) none }
    { gl with textures := texStore gl.textures gl.bound t }

/-- The image bytes after writing the `cols` by `rows` block `src` at offset
(0, 0) of an image `tw` pixels wide. -/
def blit (tw : Nat) (old : List (Option Nat)) (cols rows : Nat) (src : List Nat) :
    List (Option Nat) :=
  (List.range old.length).map fun i =>
    let r := i / 4 / tw
    let c := i / 4 % tw
    if r < rows ∧ c < cols then src.get? ((r * cols + c) * 4 + i % 4) else old.getD i none

/-- `glTexSubImage2D(GL_TEXTURE_2D, 0, 0, 0, cols, rows, GL_RGBA,
GL_UNSIGNED_BYTE, data)`: a block that does not fit in the image of the bound
object is an error and changes nothing; otherwise the block replaces the
texels it covers. -/
def glTexSubImage2D (gl : GLState) (cols rows : Nat) (data : List Nat) : GLState :=
  let t := gl.current
  if cols > t.width ∨ rows > t.height then gl
  else
    let t1 : TexObject := { t with data := blit t.width t.data cols rows data }
    { gl with textures := texStore gl.textures gl.bound t1 }

/-- `glDeleteTextures(1, &name)`: name 0 is ignored; a deleted texture that is
bound leaves the default texture bound. -/
def glDeleteTextures (gl : GLState) (name : Nat) : GLState :=
  if name = 0 then gl
  else
    { gl with textures := texErase gl.textures name,
              bound := if gl.bound = name then 0 else gl.bound }

/-! ## `ImageProcessor` -/

/-- The fields of `class ImageProcessor`; `texId_` is a `GLuint`. -/
structure ImageProcessor where
  width_ : Int
  height_ : Int
  texId_ : Nat
deriving DecidableEq, Repr

/-- `ImageProcessor::ImageProcessor(int width, int height)`. -/
def ImageProcessor.new (width height : Int) : ImageProcessor :=
  { width_ := width, height_ := height, texId_ := 0 }

/-- `ImageProcessor::~ImageProcessor()`. -/
def ImageProcessor.destroy (p : ImageProcessor) (gl : GLState) : GLState :=
  if p.texId_ ≠ 0 then glDeleteTextures gl p.texId_ else gl

/-- `ImageProcessor::ensureTexture()`. -/
def ImageProcessor.ensureTexture (p : ImageProcessor) (gl : GLState) :
    ImageProcessor × GLState :=
  if p.texId_ = 0 then
    let g := glGenTextures gl
    let p1 := { p with texId_ := g.2.getD p.texId_ }
    let gl1 := glBindTexture g.1 p1.texId_
    let gl2 := glTexParameteri_MIN_FILTER gl1 GL_LINEAR
    let gl3 := glTexParameteri_MAG_FILTER gl2 GL_LINEAR
    (p1, glTexImage2D_null gl3 p1.width_ p1.height_)
  else (p, gl)

/-- The conversion `(int)texId_` of a `GLuint`. -/
def toJint (n : Nat) : Int :=
  if n % 2 ^ 32 < 2 ^ 31 then (n % 2 ^ 32 : Nat) else (n % 2 ^ 32 : Nat) - 2 ^ 32

/-- `ImageProcessor::uploadToTexture(const cv::Mat &mat)`: the processor and
the GL state afterwards, and the returned texture id. -/
def ImageProcessor.uploadToTexture (p : ImageProcessor) (gl : GLState) (mat : Mat) :
    ImageProcessor × GLState × Int :=
  let e := p.ensureTexture gl
  let gl1 := glBindTexture e.2 e.1.texId_
  let gl2 := glTexSubImage2D gl1 mat.cols mat.rows mat.data
  (e.1, gl2, toJint e.1.texId_)

/-! ## `native-lib.cpp` -/

/-- The process state: the global `gProcessor` (`none` is `nullptr`) and the
GL context. -/
structure World where
  gProcessor : Option ImageProcessor
  gl : GLState
deriving DecidableEq, Repr

/-- `Java_com_example_edgeviewer_MainActivity_nativeInit`. -/
def nativeInit (s : World) (width height : Int) : World :=
  match s.gProcessor with
  | none => { s with gProcessor := some (ImageProcessor.new width height) }
  | some _ => s

/-- The decode step of `nativeProcessFrame`: the header `yMat(height, width,
CV_8UC1, bytes)` over the array and its conversion to `rgba`. -/
def decodeStep (k : CvKernels) (data : List Nat) (width height : Int) : Except Fault Mat :=
  cvtColor_YUV2RGBA_NV21 k height width data

/-- The branch `toggleEdge == 1` of `nativeProcessFrame`. -/
def edgeBranch (k : CvKernels) (rgba : Mat) : Except Fault Mat := do
  let gray ← cvtColor_RGBA2GRAY k rgba
  let out := Canny k gray 50 150
  cvtColor_GRAY2RGBA out

/-- The matrix `out` of `nativeProcessFrame`. -/
def selectOutput (k : CvKernels) (rgba : Mat) (toggleEdge : Int) : Except Fault Mat :=
  if toggleEdge = 1 then edgeBranch k rgba else .ok rgba

/-- `Java_com_example_edgeviewer_MainActivity_nativeProcessFrame`: the state
afterwards and the returned `jint`, or the fault that ends the call. -/
def nativeProcessFrame (k : CvKernels) (s : World) (data : List Nat) (width height : Int)
    (_timestampNs : Int) (toggleEdge : Int) : Except Fault (World × Int) := do
  let _len := data.length
  let rgba ← decodeStep k data width height
  let out ← selectOutput k rgba toggleEdge
  match s.gProcessor with
  | none => .error .nullDereference
  | some p =>
    let u := p.uploadToTexture s.gl out
    .ok ({ gProcessor := some u.1, gl := u.2.1 }, u.2.2)

/-- `Java_com_example_edgeviewer_MainActivity_nativeRelease`. -/
def nativeRelease (s : World) : World :=
  match s.gProcessor with
  | some p => { gProcessor := none, gl := p.destroy s.gl }
  | none => s

/-- One call of `nativeProcessFrame` as the Java side issues it. -/
structure Frame where
  data : List Nat
  width : Int
  height : Int
  timestampNs : Int
  toggleEdge : Int
deriving DecidableEq, Repr

/-- A caller that submits the frames one after the other; a fault ends the
run. -/
def runFrames (k : CvKernels) (s : World) : List Frame → Except Fault World
  | [] => .ok s
  | f :: rest =>
    match nativeProcessFrame k s f.data f.width f.height f.timestampNs f.toggleEdge with
    | .ok r => runFrames k r.1 rest
    | .error e => .error e

/-- Kernels for evaluating the model on concrete frames: neutral chroma, the
red channel as luminance, and an edge wherever the gray value reaches the high
threshold. -/
def sampleKernels : CvKernels :=
  { yuv2rgb := fun y _ _ => (y, y, y),
    rgb2gray := fun r _ _ => r,
    cannyEdge := fun m _ high i => decide (high ≤ m.data.getD i 0) }

/-- A GL context without textures whose next texture names are 7 and 8. -/
def sampleGL : GLState := { supply := [7, 8], textures := [], bound := 0 }

/-- The colour buffer `decodeStep sampleKernels` returns for the bytes 1 to 9
(or 1 to 6) with width 2 and height 3. -/
def sampleRgba : Mat :=
  ⟨2, 2, 4, [1, 1, 1, 255, 2, 2, 2, 255, 3, 3, 3, 255, 4, 4, 4, 255]⟩

/-- The colour buffer `decodeStep sampleKernels` returns for the bytes 200, 2,
3, ..., 9 with width 2 and height 3. -/
def sampleBrightRgba : Mat :=
  ⟨2, 2, 4, [200, 200, 200, 255, 2, 2, 2, 255, 3, 3, 3, 255, 4, 4, 4, 255]⟩

/-- A texture of 2 by 3 whose first two rows hold `sampleRgba` and whose third
row is undefined. -/
def sampleTexture : TexObject :=
  { minFilter := GL_LINEAR, magFilter := GL_LINEAR, width := 2, height := 3,
    data := [some 1, some 1, some 1, some 255, some 2, some 2, some 2, some 255,
             some 3, some 3, some 3, some 255, some 4, some 4, some 4, some 255,
             none, none, none, none, none, none, none, none] }

/-- The state reached from `sampleGL` by `nativeInit 2 3` and one pass-through
frame of width 2 and height 3. -/
def sampleAfterFrame : World :=
  { gProcessor := some { width_ := 2, height_ := 3, texId_ := 7 },
    gl := { supply := [8], textures := [(7, sampleTexture)], bound := 7 } }

/-! ## Basic facts -/

theorem genPixels_length (f : Nat → Nat × Nat × Nat × Nat) (n : Nat) :
    (genPixels f n).length = n * 4 := by
  induction n with
  | zero => simp [genPixels]
  | succ n ih => simp [genPixels, ih]; omega

theorem texLookup_texErase_self (ts : List (Nat × TexObject)) (name : Nat) :
    texLookup (texErase ts name) name = none := by
  induction ts with
  | nil => rfl
  | cons a rest ih =>
    obtain ⟨n, t⟩ := a
    by_cases h : n = name
    · simp [texErase, h, ih]
    · simp [texErase, texLookup, h, ih]

theorem texLookup_texStore_self (ts : List (Nat × TexObject)) (name : Nat) (t : TexObject) :
    texLookup (texStore ts name t) name = some t := by
  simp [texStore, texLookup]

theorem nat_lt_mul_of_rc (r c rows cols : Nat) (hr : r < rows) (hc : c < cols) :
    r * cols + c < rows * cols := by
  calc r * cols + c < r * cols + cols := by omega
    _ = (r + 1) * cols := by ring
    _ ≤ rows * cols := Nat.mul_le_mul_right cols hr

/-- The size policy of the decode step: whenever it returns, the colour buffer
has `width` columns and `height * 2 / 3` rows of four bytes. -/
theorem decodeStep_size (k : CvKernels) (data : List Nat) (width height : Int) (m : Mat)
    (h : decodeStep k data width height = .ok m) :
    0 < width ∧ 0 < height ∧ width % 2 = 0 ∧ height % 3 = 0 ∧
    height * width ≤ data.length ∧
    (m.cols : Int) = width ∧ (m.rows : Int) = height * 2 / 3 ∧ m.channels = 4 ∧
    m.data.length = m.rows * m.cols * 4 := by
  unfold decodeStep cvtColor_YUV2RGBA_NV21 at h
  split at h
  · cases h
  · split at h
    · cases h
    · split at h
      · cases h
      · rename_i h1 h2 h3
        injection h with h
        subst h
        simp only [genPixels_length]
        have hw : 0 < width := by omega
        have hh : 0 < height := by omega
        refine ⟨hw, hh, by omega, by omega, by omega, ?_, ?_, trivial, trivial⟩
        · exact Int.toNat_of_nonneg (le_of_lt hw)
        · exact Int.toNat_of_nonneg (by omega)

/-- After `nativeRelease` no processor is left, whatever the state was. -/
theorem nativeRelease_gProcessor (s : World) : (nativeRelease s).gProcessor = none := by
  unfold nativeRelease
  cases h : s.gProcessor with
  | none => simpa using h
  | some p => rfl

/-- The texture owned by the released processor is no longer a texture
object. -/
theorem nativeRelease_deletes (p : ImageProcessor) (gl : GLState) (h : p.texId_ ≠ 0) :
    texLookup (nativeRelease ⟨some p, gl⟩).gl.textures p.texId_ = none := by
  simp [nativeRelease, ImageProcessor.destroy, glDeleteTextures, h, texLookup_texErase_self]

/-! ## The lifecycle entry points -/

/-- C6: `nativeInit` is idempotent. From every state, a second `nativeInit`
with any dimensions leaves the state of the first one; on a state without
processor the first call creates one with the first dimensions and texture
id 0, and the second call keeps it; on a state with a processor the call
changes nothing, so the dimensions and the texture id stay. -/
theorem nativeInit_idempotent (s : World) (p : ImageProcessor) (gl : GLState)
    (w1 h1 w2 h2 : Int) :
    nativeInit (nativeInit s w1 h1) w2 h2 = nativeInit s w1 h1 ∧
    nativeInit (nativeInit ⟨none, gl⟩ w1 h1) w2 h2
      = ⟨some { width_ := w1, height_ := h1, texId_ := 0 }, gl⟩ ∧
    nativeInit ⟨some p, gl⟩ w2 h2 = ⟨some p, gl⟩ := by
  refine ⟨?_, rfl, rfl⟩
  obtain ⟨q, g⟩ := s
  cases q <;> rfl

/-- C7: `nativeRelease` is idempotent and does nothing without a processor.
The function is total (it has no failing outcome); a second release gives the
state of the first; on a state whose `gProcessor` is null the whole state,
the GL textures included, is returned unchanged. -/
theorem nativeRelease_idempotent (s : World) (gl : GLState) :
    nativeRelease (nativeRelease s) = nativeRelease s ∧
    nativeRelease ⟨none, gl⟩ = ⟨none, gl⟩ := by
  refine ⟨?_, rfl⟩
  obtain ⟨q, g⟩ := s
  cases q <;> rfl

/-- C10: release leads back to a state from which `nativeInit` starts afresh.
After `nativeInit w1 h1` on a state without processor and any run of frames
that returns, `nativeRelease` leaves no processor, the texture the processor
owned (if its id is not 0) is no longer a texture object, and a following
`nativeInit w2 h2` creates a processor with dimensions `(w2, h2)` and texture
id 0. -/
theorem release_then_init_fresh (k : CvKernels) (gl : GLState) (w1 h1 w2 h2 : Int)
    (frames : List Frame) (s : World)
    (hrun : runFrames k (nativeInit ⟨none, gl⟩ w1 h1) frames = .ok s) :
    (nativeRelease s).gProcessor = none ∧
    (∀ p, s.gProcessor = some p → p.texId_ ≠ 0 →
      texLookup (nativeRelease s).gl.textures p.texId_ = none) ∧
    nativeInit (nativeRelease s) w2 h2
      = ⟨some { width_ := w2, height_ := h2, texId_ := 0 }, (nativeRelease s).gl⟩ := by
  have hnone := nativeRelease_gProcessor s
  refine ⟨hnone, ?_, ?_⟩
  · intro p hp hne
    obtain ⟨q, g⟩ := s
    simp only at hp
    subst hp
    exact nativeRelease_deletes p g hne
  · unfold nativeInit
    rw [hnone]
    rfl

/-- Witness of C10: one frame between `nativeInit 2 3` and the release, then
`nativeInit 5 4`. -/
theorem release_then_init_fresh_witness :
    runFrames sampleKernels (nativeInit ⟨none, sampleGL⟩ 2 3)
        [⟨[1, 2, 3, 4, 5, 6, 7, 8, 9], 2, 3, 0, 0⟩] = .ok sampleAfterFrame ∧
    ((nativeRelease sampleAfterFrame).gProcessor = none ∧
     (∀ p, sampleAfterFrame.gProcessor = some p → p.texId_ ≠ 0 →
        texLookup (nativeRelease sampleAfterFrame).gl.textures p.texId_ = none) ∧
     nativeInit (nativeRelease sampleAfterFrame) 5 4
       = ⟨some { width_ := 5, height_ := 4, texId_ := 0 },
          (nativeRelease sampleAfterFrame).gl⟩) :=
  ⟨by rfl, release_then_init_fresh sampleKernels sampleGL 2 3 5 4
        [⟨[1, 2, 3, 4, 5, 6, 7, 8, 9], 2, 3, 0, 0⟩] sampleAfterFrame (by rfl)⟩

/-! ## `nativeProcessFrame` -/

/-- The call is the decode step, the choice of `out`, and the upload through
`gProcessor`, in this order. -/
theorem nativeProcessFrame_eq (k : CvKernels) (s : World) (data : List Nat)
    (width height ts toggleEdge : Int) :
    nativeProcessFrame k s data width height ts toggleEdge =
      match decodeStep k data width height with
      | .error e => .error e
      | .ok rgba =>
        match selectOutput k rgba toggleEdge with
        | .error e => .error e
        | .ok out =>
          match s.gProcessor with
          | none => .error .nullDereference
          | some p =>
            .ok ({ gProcessor := some (p.uploadToTexture s.gl out).1,
                   gl := (p.uploadToTexture s.gl out).2.1 },
                 (p.uploadToTexture s.gl out).2.2) := by
  unfold nativeProcessFrame
  cases decodeStep k data width height with
  | error e => rfl
  | ok rgba =>
    cases hsel : selectOutput k rgba toggleEdge with
    | error e => simp [bind, Except.bind, hsel]
    | ok out => simp [bind, Except.bind, hsel]

/-- C1 (the code has no guard): with `gProcessor` null, `nativeProcessFrame`
never returns a value, for any buffer, dimensions, timestamp and mode; on a
9-byte frame of 2 by 3 it converts the frame and then calls `uploadToTexture`
through the null pointer. -/
theorem nativeProcessFrame_null_gProcessor (k : CvKernels) (gl : GLState)
    (data : List Nat) (width height ts toggleEdge : Int) :
    (∀ r, nativeProcessFrame k ⟨none, gl⟩ data width height ts toggleEdge ≠ .ok r) ∧
    nativeProcessFrame k ⟨none, gl⟩ [1, 2, 3, 4, 5, 6, 7, 8, 9] 2 3 0 0
      = .error .nullDereference := by
  refine ⟨?_, rfl⟩
  intro r
  rw [nativeProcessFrame_eq]
  cases decodeStep k data width height with
  | error e => simp
  | ok rgba =>
    cases hsel : selectOutput k rgba toggleEdge with
    | error e => simp [hsel]
    | ok out => simp [hsel]

/-- C3 (the code wraps the array with `height` rows): on a 9-byte frame with
width 2 and height 3 the decode step returns a colour buffer of 2 columns and
2 rows, 16 bytes, not 2 columns and 3 rows, 24 bytes. -/
theorem decodeStep_two_thirds_rows (k : CvKernels) :
    ∃ m, decodeStep k [1, 2, 3, 4, 5, 6, 7, 8, 9] 2 3 = .ok m ∧
      m.cols = 2 ∧ m.rows = 2 ∧ m.channels = 4 ∧ m.data.length = 16 ∧
      m.rows ≠ 3 ∧ m.data.length ≠ 2 * 3 * 4 := by
  refine ⟨_, rfl, rfl, rfl, rfl, rfl, ?_, ?_⟩
  · show (2 : Nat) ≠ 3
    decide
  · show (16 : Nat) ≠ 2 * 3 * 4
    decide

theorem grayToRgbaBytes_getD_add_four (g : Nat) (rest : List Nat) (n : Nat) :
    (grayToRgbaBytes (g :: rest)).getD (n + 4) 0 = (grayToRgbaBytes rest).getD n 0 := by
  simp [grayToRgbaBytes]

theorem grayToRgbaBytes_getD (l : List Nat) (i : Nat) (hi : i < l.length) :
    (grayToRgbaBytes l).getD (i * 4) 0 = l.getD i 0 ∧
    (grayToRgbaBytes l).getD (i * 4 + 1) 0 = l.getD i 0 ∧
    (grayToRgbaBytes l).getD (i * 4 + 2) 0 = l.getD i 0 ∧
    (grayToRgbaBytes l).getD (i * 4 + 3) 0 = 255 := by
  induction l generalizing i with
  | nil => simp at hi
  | cons g rest ih =>
    cases i with
    | zero => simp [grayToRgbaBytes]
    | succ j =>
      have hj : j < rest.length := by simpa using hi
      have e0 : (j + 1) * 4 = j * 4 + 4 := by omega
      have e1 : (j + 1) * 4 + 1 = j * 4 + 1 + 4 := by omega
      have e2 : (j + 1) * 4 + 2 = j * 4 + 2 + 4 := by omega
      have e3 : (j + 1) * 4 + 3 = j * 4 + 3 + 4 := by omega
      rw [e1, e2, e3, e0]
      simp only [grayToRgbaBytes_getD_add_four]
      simpa using ih j hj

/-- On a non-empty four-channel buffer the edge branch returns: it is the
gray to RGBA expansion of the edge map of the luminance image. -/
theorem edgeBranch_ok (k : CvKernels) (rgba : Mat) (hr : rgba.rows ≠ 0) (hc : rgba.cols ≠ 0)
    (hch : rgba.channels = 4) :
    ∃ gray, cvtColor_RGBA2GRAY k rgba = .ok gray ∧
      edgeBranch k rgba = .ok
        { rows := rgba.rows, cols := rgba.cols, channels := 4,
          data := grayToRgbaBytes ((List.range (rgba.rows * rgba.cols)).map fun i =>
            if k.cannyEdge gray 50 150 i then 255 else 0) } := by
  have hgray : ∃ gray, cvtColor_RGBA2GRAY k rgba = .ok gray ∧ gray.rows = rgba.rows ∧
      gray.cols = rgba.cols ∧ gray.channels = 1 := by
    unfold cvtColor_RGBA2GRAY
    rw [if_neg (by simp [hr, hc]), if_neg (by simp [hch])]
    exact ⟨_, rfl, rfl, rfl, rfl⟩
  obtain ⟨gray, hg, h1, h2, h3⟩ := hgray
  refine ⟨gray, hg, ?_⟩
  unfold edgeBranch
  simp only [hg, bind, Except.bind, Canny, cvtColor_GRAY2RGBA, h1, h2, h3]
  simp [hr, hc]

/-- The colour buffer of the decode step is never empty. -/
theorem decodeStep_nonempty (k : CvKernels) (data : List Nat) (width height : Int) (m : Mat)
    (h : decodeStep k data width height = .ok m) :
    m.rows ≠ 0 ∧ m.cols ≠ 0 ∧ m.channels = 4 := by
  obtain ⟨hw, hh, _, h3, _, hc, hr, hch, _⟩ := decodeStep_size k data width height m h
  refine ⟨?_, ?_, hch⟩
  · intro h0
    rw [h0] at hr
    have : (0 : Int) = height * 2 / 3 := by exact_mod_cast hr
    omega
  · intro h0
    rw [h0] at hc
    have : (0 : Int) = width := by exact_mod_cast hc
    omega

/-- C8: the edge branch yields binary pixels. For every colour buffer returned
by the decode step the branch `toggleEdge == 1` (RGBA to gray, Canny with
thresholds 50 and 150, gray to RGBA) returns a four-channel buffer of the same
size in which every pixel has red = green = blue, this value being 0 or 255,
and alpha 255. -/
theorem edgeBranch_binary (k : CvKernels) (data : List Nat) (width height : Int) (rgba : Mat)
    (hdec : decodeStep k data width height = .ok rgba) :
    ∃ out, edgeBranch k rgba = .ok out ∧
      out.rows = rgba.rows ∧ out.cols = rgba.cols ∧ out.channels = 4 ∧
      ∀ r c, r < out.rows → c < out.cols →
        out.at r c 0 = out.at r c 1 ∧ out.at r c 1 = out.at r c 2 ∧
        (out.at r c 0 = 0 ∨ out.at r c 0 = 255) ∧ out.at r c 3 = 255 := by
  obtain ⟨hr, hc, hch⟩ := decodeStep_nonempty k data width height rgba hdec
  obtain ⟨gray, _, hout⟩ := edgeBranch_ok k rgba hr hc hch
  refine ⟨_, hout, rfl, rfl, rfl, ?_⟩
  intro r c hrlt hclt
  have hi : r * rgba.cols + c < rgba.rows * rgba.cols :=
    nat_lt_mul_of_rc r c rgba.rows rgba.cols hrlt hclt
  have hlen : r * rgba.cols + c <
      ((List.range (rgba.rows * rgba.cols)).map fun i =>
        if k.cannyEdge gray 50 150 i then 255 else 0).length := by
    simpa using hi
  obtain ⟨g0, g1, g2, g3⟩ := grayToRgbaBytes_getD _ _ hlen
  simp only [Mat.at, Nat.add_zero]
  rw [g0, g1, g2, g3]
  refine ⟨rfl, rfl, ?_, rfl⟩
  rw [List.getD_eq_getElem _ _ hlen]
  simp only [List.getElem_map, List.getElem_range]
  split
  · right; rfl
  · left; rfl

/-- Witness of C8: a 2 by 3 frame whose first luma byte is bright. -/
theorem edgeBranch_binary_witness :
    decodeStep sampleKernels [200, 2, 3, 4, 5, 6, 7, 8, 9] 2 3
      = .ok sampleBrightRgba ∧
    ∃ out, edgeBranch sampleKernels
        sampleBrightRgba = .ok out ∧
      out.rows = 2 ∧ out.cols = 2 ∧ out.channels = 4 ∧
      ∀ r c, r < out.rows → c < out.cols →
        out.at r c 0 = out.at r c 1 ∧ out.at r c 1 = out.at r c 2 ∧
        (out.at r c 0 = 0 ∨ out.at r c 0 = 255) ∧ out.at r c 3 = 255 :=
  ⟨by rfl, edgeBranch_binary sampleKernels [200, 2, 3, 4, 5, 6, 7, 8, 9] 2 3 _ (by rfl)⟩

/-- C9: mode routing. With a processor present and a frame the decode step
converts to `rgba`: for `toggleEdge = 1` the edge branch returns a buffer
`out` and the call is the upload of `out`; for every other value of
`toggleEdge`, 0 included, the call is the upload of `rgba` itself. In both
cases the call returns the id returned by `uploadToTexture` and leaves the
processor and GL state that `uploadToTexture` leaves. -/
theorem nativeProcessFrame_routing (k : CvKernels) (p : ImageProcessor) (gl : GLState)
    (data : List Nat) (width height ts toggleEdge : Int) (rgba : Mat)
    (hdec : decodeStep k data width height = .ok rgba) :
    (toggleEdge = 1 → ∃ out, edgeBranch k rgba = .ok out ∧
      nativeProcessFrame k ⟨some p, gl⟩ data width height ts toggleEdge
        = .ok ({ gProcessor := some (p.uploadToTexture gl out).1,
                 gl := (p.uploadToTexture gl out).2.1 },
               (p.uploadToTexture gl out).2.2)) ∧
    (toggleEdge ≠ 1 →
      nativeProcessFrame k ⟨some p, gl⟩ data width height ts toggleEdge
        = .ok ({ gProcessor := some (p.uploadToTexture gl rgba).1,
                 gl := (p.uploadToTexture gl rgba).2.1 },
               (p.uploadToTexture gl rgba).2.2)) := by
  constructor
  · intro hmode
    obtain ⟨hr, hc, hch⟩ := decodeStep_nonempty k data width height rgba hdec
    obtain ⟨gray, _, hout⟩ := edgeBranch_ok k rgba hr hc hch
    refine ⟨_, hout, ?_⟩
    rw [nativeProcessFrame_eq, hdec]
    simp [selectOutput, hmode, hout]
  · intro hmode
    rw [nativeProcessFrame_eq, hdec]
    simp [selectOutput, hmode]

/-- Witness of C9: the bright-cornered frame of width 2 and height 3 on a
processor of 2 by 3, once with `toggleEdge = 1` and once with
`toggleEdge = 2`. -/
theorem nativeProcessFrame_routing_witness :
    decodeStep sampleKernels [200, 2, 3, 4, 5, 6, 7, 8, 9] 2 3 = .ok sampleBrightRgba ∧
    (∃ out, edgeBranch sampleKernels sampleBrightRgba = .ok out ∧
      nativeProcessFrame sampleKernels ⟨some ⟨2, 3, 0⟩, sampleGL⟩
          [200, 2, 3, 4, 5, 6, 7, 8, 9] 2 3 0 1
        = .ok ({ gProcessor := some ((ImageProcessor.mk 2 3 0).uploadToTexture sampleGL out).1,
                 gl := ((ImageProcessor.mk 2 3 0).uploadToTexture sampleGL out).2.1 },
               ((ImageProcessor.mk 2 3 0).uploadToTexture sampleGL out).2.2)) ∧
    nativeProcessFrame sampleKernels ⟨some ⟨2, 3, 0⟩, sampleGL⟩
        [200, 2, 3, 4, 5, 6, 7, 8, 9] 2 3 0 2
      = .ok ({ gProcessor :=
                 some ((ImageProcessor.mk 2 3 0).uploadToTexture sampleGL sampleBrightRgba).1,
               gl := ((ImageProcessor.mk 2 3 0).uploadToTexture sampleGL sampleBrightRgba).2.1 },
             ((ImageProcessor.mk 2 3 0).uploadToTexture sampleGL sampleBrightRgba).2.2) :=
  ⟨by rfl,
   (nativeProcessFrame_routing sampleKernels ⟨2, 3, 0⟩ sampleGL
      [200, 2, 3, 4, 5, 6, 7, 8, 9] 2 3 0 1 sampleBrightRgba (by rfl)).1 rfl,
   (nativeProcessFrame_routing sampleKernels ⟨2, 3, 0⟩ sampleGL
      [200, 2, 3, 4, 5, 6, 7, 8, 9] 2 3 0 2 sampleBrightRgba (by rfl)).2 (by decide)⟩

/-! ## The texture -/

theorem glBindTexture_bound (gl : GLState) (name : Nat) :
    (glBindTexture gl name).bound = name := by
  unfold glBindTexture
  cases texLookup gl.textures name <;> rfl

theorem glBindTexture_current (gl : GLState) (name : Nat) :
    texLookup (glBindTexture gl name).textures name = some (glBindTexture gl name).current := by
  unfold GLState.current
  rw [glBindTexture_bound]
  unfold glBindTexture
  cases hl : texLookup gl.textures name with
  | none => simp [texLookup_texStore_self]
  | some t => simp [hl]

theorem blit_length (tw : Nat) (old : List (Option Nat)) (cols rows : Nat) (src : List Nat) :
    (blit tw old cols rows src).length = old.length := by
  simp [blit]

/-- The texel bytes after a block write: inside the block the bytes of the
source, outside the old bytes. -/
theorem blit_getD (tw th : Nat) (old : List (Option Nat)) (cols rows : Nat) (src : List Nat)
    (hlen : old.length = tw * th * 4) (r c ch : Nat) (hr : r < th) (hc : c < tw)
    (hch : ch < 4) :
    (blit tw old cols rows src).getD ((r * tw + c) * 4 + ch) none =
      if r < rows ∧ c < cols then src.get? ((r * cols + c) * 4 + ch)
      else old.getD ((r * tw + c) * 4 + ch) none := by
  have hpx : r * tw + c < th * tw := nat_lt_mul_of_rc r c th tw hr hc
  have hi : (r * tw + c) * 4 + ch < old.length := by
    rw [hlen, Nat.mul_comm tw th]
    omega
  have hi' : (r * tw + c) * 4 + ch < (blit tw old cols rows src).length := by
    rw [blit_length]
    exact hi
  have h4 : ((r * tw + c) * 4 + ch) / 4 = r * tw + c := by omega
  have h4m : ((r * tw + c) * 4 + ch) % 4 = ch := by omega
  have htw : 0 < tw := by omega
  have hdiv : (r * tw + c) / tw = r := by
    rw [Nat.add_comm, Nat.add_mul_div_right _ _ htw, Nat.div_eq_of_lt hc]
    omega
  have hmod : (r * tw + c) % tw = c := by
    rw [Nat.add_comm, Nat.add_mul_mod_self_right, Nat.mod_eq_of_lt hc]
  rw [List.getD_eq_getElem _ _ hi']
  simp only [blit, List.getElem_map, List.getElem_range, h4, h4m, hdiv, hmod]

/-- C4, counterexample: a new processor of 2 by 3 is given a buffer of 2
columns and 2 rows. The upload is not refused: it returns texture id 7 and the
first two rows of the texture hold the bytes of the buffer. -/
theorem uploadToTexture_smaller_buffer_example :
    (sampleRgba.cols, sampleRgba.rows) ≠ (2, 3) ∧
    (ImageProcessor.new 2 3).uploadToTexture sampleGL sampleRgba
      = (⟨2, 3, 7⟩, sampleAfterFrame.gl, 7) ∧
    texLookup sampleAfterFrame.gl.textures 7
      ≠ texLookup ((ImageProcessor.new 2 3).ensureTexture sampleGL).2.textures 7 :=
  ⟨by decide, by rfl, by decide⟩

/-- C4, amended: `uploadToTexture` compares no dimensions and returns the
texture id for every buffer. When the texture of the processor (after
`ensureTexture`) is an image of `w` by `h`, a buffer of `cols ≤ w` columns and
`rows ≤ h` rows replaces the texels of the block of `cols` by `rows` at the
origin and leaves the other texels, so a buffer of exactly `w` by `h` replaces
every texel; a buffer with more columns or rows is refused by the GL, the
textures stay as `ensureTexture` left them, and the id is returned all the
same. -/
theorem uploadToTexture_no_dimension_check (p : ImageProcessor) (gl : GLState) (mat : Mat)
    (T : TexObject) (w h : Nat)
    (hT : texLookup (p.ensureTexture gl).2.textures (p.ensureTexture gl).1.texId_ = some T)
    (hw : T.width = w) (hh : T.height = h) (hlen : T.data.length = w * h * 4) :
    (p.uploadToTexture gl mat).1 = (p.ensureTexture gl).1 ∧
    (p.uploadToTexture gl mat).2.2 = toJint (p.ensureTexture gl).1.texId_ ∧
    (mat.cols ≤ w → mat.rows ≤ h →
      ∃ T1, texLookup (p.uploadToTexture gl mat).2.1.textures (p.ensureTexture gl).1.texId_
          = some T1 ∧ T1.width = w ∧ T1.height = h ∧
        ∀ r c ch, r < h → c < w → ch < 4 →
          T1.data.getD ((r * w + c) * 4 + ch) none =
            if r < mat.rows ∧ c < mat.cols then mat.data.get? ((r * mat.cols + c) * 4 + ch)
            else T.data.getD ((r * w + c) * 4 + ch) none) ∧
    (mat.cols = w → mat.rows = h →
      ∃ T1, texLookup (p.uploadToTexture gl mat).2.1.textures (p.ensureTexture gl).1.texId_
          = some T1 ∧ T1.width = w ∧ T1.height = h ∧
        ∀ r c ch, r < h → c < w → ch < 4 →
          T1.data.getD ((r * w + c) * 4 + ch) none = mat.data.get? ((r * w + c) * 4 + ch)) ∧
    (w < mat.cols ∨ h < mat.rows →
      (p.uploadToTexture gl mat).2.1.textures = (p.ensureTexture gl).2.textures) := by
  generalize hE : p.ensureTexture gl = e at hT
  have hbind : glBindTexture e.2 e.1.texId_ = { e.2 with bound := e.1.texId_ } := by
    simp [glBindTexture, hT]
  have hcur : (glBindTexture e.2 e.1.texId_).current = T := by
    rw [hbind]
    simp [GLState.current, hT]
  have hblock : mat.cols ≤ w → mat.rows ≤ h →
      ∃ T1, texLookup (p.uploadToTexture gl mat).2.1.textures e.1.texId_
          = some T1 ∧ T1.width = w ∧ T1.height = h ∧
        ∀ r c ch, r < h → c < w → ch < 4 →
          T1.data.getD ((r * w + c) * 4 + ch) none =
            if r < mat.rows ∧ c < mat.cols then mat.data.get? ((r * mat.cols + c) * 4 + ch)
            else T.data.getD ((r * w + c) * 4 + ch) none := by
    intro hc hr
    simp only [ImageProcessor.uploadToTexture, hE, glTexSubImage2D, hcur]
    rw [if_neg (by omega)]
    simp only [hbind, texLookup_texStore_self]
    refine ⟨_, rfl, hw, hh, ?_⟩
    intro r c ch hr' hc' hch
    rw [hw]
    exact blit_getD w h T.data mat.cols mat.rows mat.data hlen r c ch hr' hc' hch
  refine ⟨?_, ?_, hblock, ?_, ?_⟩
  · simp [ImageProcessor.uploadToTexture, hE]
  · simp [ImageProcessor.uploadToTexture, hE]
  · intro hc hr
    obtain ⟨T1, h1, h2, h3, h4⟩ := hblock (le_of_eq hc) (le_of_eq hr)
    refine ⟨T1, h1, h2, h3, ?_⟩
    intro r c ch hr' hc' hch
    rw [h4 r c ch hr' hc' hch, if_pos ⟨by omega, by omega⟩, hc]
  · intro hbig
    simp only [ImageProcessor.uploadToTexture, hE, glTexSubImage2D, hcur]
    rw [if_pos (by omega), hbind]

/-- Witness of C4 amended: the processor of `sampleAfterFrame`, whose texture
7 is 2 by 3, is given the buffer `sampleBrightRgba` of 2 columns and 2
rows. -/
theorem uploadToTexture_no_dimension_check_witness :
    texLookup ((ImageProcessor.mk 2 3 7).ensureTexture sampleAfterFrame.gl).2.textures
        ((ImageProcessor.mk 2 3 7).ensureTexture sampleAfterFrame.gl).1.texId_
      = some sampleTexture ∧
    sampleTexture.width = 2 ∧ sampleTexture.height = 3 ∧
    sampleTexture.data.length = 2 * 3 * 4 ∧
    (((ImageProcessor.mk 2 3 7).uploadToTexture sampleAfterFrame.gl sampleBrightRgba).1
        = ((ImageProcessor.mk 2 3 7).ensureTexture sampleAfterFrame.gl).1 ∧
     ((ImageProcessor.mk 2 3 7).uploadToTexture sampleAfterFrame.gl sampleBrightRgba).2.2
        = toJint ((ImageProcessor.mk 2 3 7).ensureTexture sampleAfterFrame.gl).1.texId_ ∧
     (sampleBrightRgba.cols ≤ 2 → sampleBrightRgba.rows ≤ 3 →
       ∃ T1, texLookup
           ((ImageProcessor.mk 2 3 7).uploadToTexture sampleAfterFrame.gl
             sampleBrightRgba).2.1.textures
           ((ImageProcessor.mk 2 3 7).ensureTexture sampleAfterFrame.gl).1.texId_
           = some T1 ∧ T1.width = 2 ∧ T1.height = 3 ∧
         ∀ r c ch, r < 3 → c < 2 → ch < 4 →
           T1.data.getD ((r * 2 + c) * 4 + ch) none =
             if r < sampleBrightRgba.rows ∧ c < sampleBrightRgba.cols then
               sampleBrightRgba.data.get? ((r * sampleBrightRgba.cols + c) * 4 + ch)
             else sampleTexture.data.getD ((r * 2 + c) * 4 + ch) none) ∧
     (sampleBrightRgba.cols = 2 → sampleBrightRgba.rows = 3 →
       ∃ T1, texLookup
           ((ImageProcessor.mk 2 3 7).uploadToTexture sampleAfterFrame.gl
             sampleBrightRgba).2.1.textures
           ((ImageProcessor.mk 2 3 7).ensureTexture sampleAfterFrame.gl).1.texId_
           = some T1 ∧ T1.width = 2 ∧ T1.height = 3 ∧
         ∀ r c ch, r < 3 → c < 2 → ch < 4 →
           T1.data.getD ((r * 2 + c) * 4 + ch) none
             = sampleBrightRgba.data.get? ((r * 2 + c) * 4 + ch)) ∧
     (2 < sampleBrightRgba.cols ∨ 3 < sampleBrightRgba.rows →
       ((ImageProcessor.mk 2 3 7).uploadToTexture sampleAfterFrame.gl
           sampleBrightRgba).2.1.textures
         = ((ImageProcessor.mk 2 3 7).ensureTexture sampleAfterFrame.gl).2.textures)) :=
  ⟨by rfl, rfl, rfl, rfl,
   uploadToTexture_no_dimension_check ⟨2, 3, 7⟩ sampleAfterFrame.gl sampleBrightRgba
     sampleTexture 2 3 (by rfl) rfl rfl rfl⟩

end EdgeDetection
